import Mathlib

/-!
Verification of the lead-qualification core of the SDRBot/lead-robot-business
repository: usage accounting (quota admission, monthly reset, billing-status
gating), lead creation, the Zapier webhook dispatcher with its retry loop,
and the message-scoring / stage-determination engine.

Each definition is a shallow embedding of the corresponding Python source
(file and line references in the doc comments).  SQLite rows become Lean
structures, tables become lists of rows, SQL statements become pure
functions on those lists, and the network environment of the webhook
dispatcher becomes an explicit outcome function.
-/

namespace LeadRobot

/-- Row of the `customers` table (src/app.py lines 80-94, src/database.py
lines 60-75): id, email, optional Stripe subscription id, plan, status
(default `active`), api_key, leads_limit, leads_used_this_month.
Timestamps and password hash are omitted: no claim depends on them.
SQLite INTEGER columns are embedded as `Int`. -/
structure Customer where
  id : String
  email : String
  stripe_subscription_id : Option String
  plan : String
  status : String
  api_key : String
  leads_limit : Int
  leads_used_this_month : Int
deriving Repr, DecidableEq

/-- Lookup `SELECT ... FROM customers WHERE id = ?` (src/auth_service.py
lines 53-57, src/app.py lines 205-208): first row whose id matches. -/
def findCustomer (db : List Customer) (cid : String) : Option Customer :=
  db.find? (fun c => c.id == cid)

/-- AuthService.check_usage_limit (src/auth_service.py lines 51-61) and the
duplicate check_usage_limit in src/app.py lines 200-216: fetch the
customer's counters; if the row exists return
`leads_used_this_month < leads_limit`, otherwise False. -/
def check_usage_limit (db : List Customer) (cid : String) : Bool :=
  match findCustomer db cid with
  | some c => decide (c.leads_used_this_month < c.leads_limit)
  | none => false

/-- The post-admission counter update
`UPDATE customers SET leads_used_this_month = leads_used_this_month + 1
WHERE id = ?` (src/routers/leads.py lines 49-52, src/app.py lines
1413-1417). -/
def incrementUsage (db : List Customer) (cid : String) : List Customer :=
  db.map (fun c =>
    if c.id == cid then
      { c with leads_used_this_month := c.leads_used_this_month + 1 }
    else c)

lemma findCustomer_incrementUsage (db : List Customer) (cid : String)
    (c : Customer) (h : findCustomer db cid = some c) :
    findCustomer (incrementUsage db cid) cid
      = some { c with leads_used_this_month := c.leads_used_this_month + 1 } := by
  induction db with
  | nil => simp [findCustomer] at h
  | cons hd tl ih =>
    unfold findCustomer at h
    unfold findCustomer incrementUsage
    rw [List.map_cons]
    by_cases hid : hd.id = cid
    · rw [List.find?_cons_of_pos _ (by simp [hid])] at h
      injection h with hc
      subst hc
      rw [if_pos (by simp [hid])]
      exact List.find?_cons_of_pos _ (by simp [hid])
    · rw [List.find?_cons_of_neg _ (by simp [hid])] at h
      rw [if_neg (by simp [hid])]
      rw [List.find?_cons_of_neg _ (by simp [hid])]
      exact ih h

/-- Claim C1: admission is strict.  For every account record,
check_usage_limit returns true iff `leads_used_this_month < leads_limit`;
in particular it returns false when the counter equals the limit, and when
the counter equals `limit - 1` it returns true, and after the counter
increment performed on admission a subsequent check returns false. -/
theorem C1_admission_strict (db : List Customer) (cid : String) (c : Customer)
    (hfind : findCustomer db cid = some c) :
    (check_usage_limit db cid = true ↔
        c.leads_used_this_month < c.leads_limit)
    ∧ (c.leads_used_this_month = c.leads_limit →
        check_usage_limit db cid = false)
    ∧ (c.leads_used_this_month = c.leads_limit - 1 →
        check_usage_limit db cid = true
        ∧ check_usage_limit (incrementUsage db cid) cid = false) := by
  have hinc := findCustomer_incrementUsage db cid c hfind
  refine ⟨?_, ?_, ?_⟩
  · simp [check_usage_limit, hfind]
  · intro he
    simp [check_usage_limit, hfind, he]
  · intro he
    constructor
    · simp [check_usage_limit, hfind, he]
    · simp [check_usage_limit, hinc, he]

/-- Concrete instantiation of C1: an account at 4 of 5 admits, and after
the increment an account at 5 of 5 does not. -/
theorem C1_admission_strict_witness :
    check_usage_limit [⟨"c1", "a@b.com", some "sub_1", "starter", "active",
      "sk_live_1", 5, 4⟩] "c1" = true
    ∧ check_usage_limit
        (incrementUsage [⟨"c1", "a@b.com", some "sub_1", "starter", "active",
          "sk_live_1", 5, 4⟩] "c1") "c1" = false := by
  have h := C1_admission_strict
    [⟨"c1", "a@b.com", some "sub_1", "starter", "active", "sk_live_1", 5, 4⟩]
    "c1"
    ⟨"c1", "a@b.com", some "sub_1", "starter", "active", "sk_live_1", 5, 4⟩
    (by decide)
  exact h.2.2 (by decide)

/-- The `invoice.payment_succeeded` branch of stripe_webhook (src/app.py
lines 1564-1578): `UPDATE customers SET leads_used_this_month = 0 WHERE
stripe_subscription_id = ?`.  The `updated_at` touch is not modelled; no
claim depends on it.  SQL equality with a parameter never matches a NULL
column, hence the comparison with `some subId`. -/
def reset_monthly_usage (db : List Customer) (subId : String) : List Customer :=
  db.map (fun c =>
    if c.stripe_subscription_id == some subId then
      { c with leads_used_this_month := 0 }
    else c)

/-- The `invoice.payment_failed` and `customer.subscription.deleted`
branches of stripe_webhook (src/app.py lines 1580-1610):
`UPDATE customers SET status = ? WHERE stripe_subscription_id = ?` with
status `payment_failed` or `cancelled`. -/
def setStatusBySubscription (db : List Customer) (subId newStatus : String) :
    List Customer :=
  db.map (fun c =>
    if c.stripe_subscription_id == some subId then
      { c with status := newStatus }
    else c)

/-- Claim C6: the payment-succeeded handler zeroes the monthly counter of
every account mapped to the subscription id, and it is idempotent: a
second call changes nothing, so the counter is 0 after each of the two
calls, whatever its starting value. -/
theorem C6_reset_idempotent (db : List Customer) (subId : String) :
    (∀ c ∈ reset_monthly_usage db subId,
        c.stripe_subscription_id = some subId → c.leads_used_this_month = 0)
    ∧ reset_monthly_usage (reset_monthly_usage db subId) subId
        = reset_monthly_usage db subId := by
  constructor
  · intro c hc hsub
    rcases List.mem_map.mp hc with ⟨a, _, ha⟩
    subst ha
    by_cases h : a.stripe_subscription_id = some subId <;> simp_all
  · unfold reset_monthly_usage
    rw [List.map_map]
    apply List.map_congr_left
    intro a _
    by_cases h : a.stripe_subscription_id = some subId <;>
      simp [Function.comp, h]

/-- Concrete instantiation of C6: an account at 480 used drops to 0 after
the reset and stays 0 after a repeated reset. -/
theorem C6_reset_idempotent_witness :
    (∀ c ∈ reset_monthly_usage
        [⟨"cA", "a@b.com", some "sub_123", "pro", "active", "sk_live_A", 500, 480⟩]
        "sub_123",
      c.stripe_subscription_id = some "sub_123" → c.leads_used_this_month = 0)
    ∧ reset_monthly_usage (reset_monthly_usage
          [⟨"cA", "a@b.com", some "sub_123", "pro", "active", "sk_live_A", 500, 480⟩]
          "sub_123") "sub_123"
        = reset_monthly_usage
          [⟨"cA", "a@b.com", some "sub_123", "pro", "active", "sk_live_A", 500, 480⟩]
          "sub_123" :=
  C6_reset_idempotent
    [⟨"cA", "a@b.com", some "sub_123", "pro", "active", "sk_live_A", 500, 480⟩]
    "sub_123"

/-- AuthService.verify_api_key (src/auth_service.py lines 28-35) and its
duplicate in src/app.py lines 176-191:
`SELECT * FROM customers WHERE api_key = ? AND status = 'active'`. -/
def verify_api_key (db : List Customer) (key : String) : Option Customer :=
  db.find? (fun c => c.api_key == key && c.status == "active")

/-- Request body for lead creation (src/models.py, class LeadInput,
lines 7-14). -/
structure LeadInput where
  email : String
  first_name : Option String := none
  last_name : Option String := none
  company : Option String := none
  phone : Option String := none
  source : String := "api"
  initial_message : Option String := none
deriving Repr, DecidableEq

/-- Row of the `leads` table per the DDL (src/app.py lines 97-114,
src/database.py lines 78-96): the only uniqueness constraint is the
PRIMARY KEY on `id`; `email` carries no UNIQUE constraint, neither alone
nor jointly with `customer_id`.  `qualification_score` defaults to 0 and
`qualification_stage` defaults to `new`; timestamps are omitted. -/
structure LeadRow where
  id : String
  customer_id : String
  email : String
  first_name : Option String
  last_name : Option String
  company : Option String
  phone : Option String
  source : String
  qualification_score : Int := 0
  qualification_stage : String := "new"
deriving Repr, DecidableEq

/-- Persistent state touched by lead creation: the customers table and the
leads table. -/
structure Db where
  customers : List Customer
  leads : List LeadRow
deriving Repr, DecidableEq

/-- Outcome of a POST /api/leads request: 201-style success, 401 invalid
API key, 429 monthly limit exceeded, or a 500 from a database integrity
error. -/
inductive CreateLeadResult where
  | created (lead_id : String)
  | unauthorized
  | limitExceeded
  | dbError
deriving Repr, DecidableEq

/-- The row inserted by create_lead's INSERT statement
(src/routers/leads.py lines 37-46): identity and contact fields only; the
qualification columns are left to their schema defaults. -/
def newLeadRow (lead_id customer_id : String) (input : LeadInput) : LeadRow :=
  { id := lead_id, customer_id := customer_id, email := input.email,
    first_name := input.first_name, last_name := input.last_name,
    company := input.company, phone := input.phone, source := input.source }

/-- create_lead (src/routers/leads.py lines 17-66; src/app.py lines
1385-1473 is the same flow) composed with the get_current_customer
dependency (src/auth_service.py lines 67-72): resolve the API key (401
when no active row matches), reject with 429 when
`leads_used_this_month >= leads_limit`, otherwise INSERT the lead row and
increment the usage counter.  The INSERT enforces exactly the constraints
of the DDL: only the PRIMARY KEY on `id` (the caller passes a fresh UUID);
there is no duplicate-email check anywhere on the path, so a second row
with the same (customer_id, email) inserts without conflict. -/
def create_lead (db : Db) (api_key lead_id : String) (input : LeadInput) :
    CreateLeadResult × Db :=
  match verify_api_key db.customers api_key with
  | none => (.unauthorized, db)
  | some cust =>
    if cust.leads_used_this_month ≥ cust.leads_limit then
      (.limitExceeded, db)
    else if db.leads.any (fun l => l.id == lead_id) then
      (.dbError, db)
    else
      (.created lead_id,
        { customers := incrementUsage db.customers cust.id,
          leads := db.leads ++ [newLeadRow lead_id cust.id input] })

/-- Claim C8: an account whose status is not `active` (as left by the
payment-failed or cancellation handlers) can create no further leads: the
credential lookup filters on `status = 'active'`, so verification returns
no row, the request is rejected as unauthorized, and the database (lead
rows and usage counters alike) is unchanged. -/
theorem C8_nonactive_account_rejected (db : Db) (k lid : String)
    (inp : LeadInput) (c : Customer) (hc : c ∈ db.customers)
    (hkey : c.api_key = k) (hst : c.status ≠ "active")
    (huniq : ∀ c2 ∈ db.customers, c2.api_key = k → c2 = c) :
    verify_api_key db.customers k = none
    ∧ create_lead db k lid inp = (.unauthorized, db) := by
  have hv : verify_api_key db.customers k = none := by
    apply List.find?_eq_none.mpr
    intro c2 hc2
    simp only [Bool.and_eq_true, beq_iff_eq, not_and]
    intro hk2 hs2
    exact hst ((huniq c2 hc2 hk2) ▸ hs2)
  refine ⟨hv, ?_⟩
  simp [create_lead, hv]

/-- Concrete instantiation of C8: after the payment-failed handler runs for
`sub_9`, the account's API key no longer authorizes lead creation and the
state is untouched. -/
theorem C8_nonactive_account_rejected_witness :
    create_lead
      { customers := setStatusBySubscription
          [⟨"cB", "b@b.com", some "sub_9", "pro", "active", "sk_live_B", 50, 3⟩]
          "sub_9" "payment_failed",
        leads := [] }
      "sk_live_B" "lead-9" { email := "x@y.com" }
      = (.unauthorized,
        { customers := [⟨"cB", "b@b.com", some "sub_9", "pro",
            "payment_failed", "sk_live_B", 50, 3⟩], leads := [] }) := by
  have h := C8_nonactive_account_rejected
    { customers := setStatusBySubscription
        [⟨"cB", "b@b.com", some "sub_9", "pro", "active", "sk_live_B", 50, 3⟩]
        "sub_9" "payment_failed",
      leads := [] }
    "sk_live_B" "lead-9" { email := "x@y.com" }
    ⟨"cB", "b@b.com", some "sub_9", "pro", "payment_failed", "sk_live_B", 50, 3⟩
    (by decide) (by decide) (by decide) (by decide)
  exact h.2

/-- Claim C5 evidence: the code places no uniqueness constraint on
(customer_id, email) and performs no duplicate check, so a second lead
with the same email under the same account is silently inserted: both
requests succeed and two rows with that (customer_id, email) exist
afterwards, where the specification requires a conflict on the second
attempt. -/
theorem C5_duplicate_email_silently_inserted :
    (create_lead
        { customers := [⟨"cA", "a@b.com", some "sub_1", "pro", "active",
            "sk_live_A", 50, 0⟩], leads := [] }
        "sk_live_A" "lead-1" { email := "dup@x.com" }).1
      = .created "lead-1"
    ∧ (create_lead
        (create_lead
          { customers := [⟨"cA", "a@b.com", some "sub_1", "pro", "active",
              "sk_live_A", 50, 0⟩], leads := [] }
          "sk_live_A" "lead-1" { email := "dup@x.com" }).2
        "sk_live_A" "lead-2" { email := "dup@x.com" }).1
      = .created "lead-2"
    ∧ ((create_lead
        (create_lead
          { customers := [⟨"cA", "a@b.com", some "sub_1", "pro", "active",
              "sk_live_A", 50, 0⟩], leads := [] }
          "sk_live_A" "lead-1" { email := "dup@x.com" }).2
        "sk_live_A" "lead-2" { email := "dup@x.com" }).2.leads.filter
          (fun l => l.customer_id == "cA" && l.email == "dup@x.com")).length
      = 2 := by
  refine ⟨?_, ?_, ?_⟩ <;> decide

/-- Outcome of one POST attempt against a webhook URL: an HTTP response
with some status code, or an exception during transport. -/
inductive AttemptOutcome where
  | response (status : Nat)
  | transportError
deriving Repr, DecidableEq

/-- The success test of one attempt in send_to_zapier
(src/webhook_service.py lines 49-59, src/services/webhook_service.py lines
43-59): a received response counts as success exactly when its status is
200; a non-200 status and a raised exception both fall through to the
retry logic. -/
def attemptOk : AttemptOutcome → Bool
  | .response s => s == 200
  | .transportError => false

/-- Observable result of one send_to_zapier call: the returned boolean,
the number of POST attempts made, and the backoff sleeps (in seconds)
performed between consecutive attempts, in order. -/
structure SendTrace where
  success : Bool
  attemptsMade : Nat
  sleeps : List Nat
deriving Repr, DecidableEq

/-- Loop body of send_to_zapier (src/webhook_service.py lines 49-64,
src/services/webhook_service.py lines 43-65):
`for attempt in range(retry_count)` — return True on a 200, otherwise log
and, when `attempt < retry_count - 1`, sleep `2 ** attempt` seconds before
the next attempt; after the loop return False.  `env` gives the outcome of
the attempt with each index; `fuel` is the number of loop iterations left,
kept equal to `rc - attempt` by the wrapper. -/
def sendAux (env : Nat → AttemptOutcome) (rc : Nat) :
    Nat → Nat → SendTrace
  | attempt, 0 => { success := false, attemptsMade := attempt, sleeps := [] }
  | attempt, fuel + 1 =>
    if attemptOk (env attempt) then
      { success := true, attemptsMade := attempt + 1, sleeps := [] }
    else
      let rest := sendAux env rc (attempt + 1) fuel
      { success := rest.success, attemptsMade := rest.attemptsMade,
        sleeps := if attempt + 1 < rc then 2 ^ attempt :: rest.sleeps
          else rest.sleeps }

/-- ZapierWebhookService.send_to_zapier with its default retry_count of 3
(src/webhook_service.py lines 27-64, src/services/webhook_service.py lines
18-67), abstracted over the network outcomes of the successive attempts. -/
def send_to_zapier (env : Nat → AttemptOutcome) (rc : Nat := 3) : SendTrace :=
  sendAux env rc 0 rc

lemma sendAux_congr (env env2 : Nat → AttemptOutcome) (rc : Nat)
    (h : ∀ i, attemptOk (env i) = attemptOk (env2 i)) :
    ∀ fuel attempt, sendAux env rc attempt fuel = sendAux env2 rc attempt fuel := by
  intro fuel
  induction fuel with
  | zero => intro attempt; rfl
  | succ n ih =>
    intro attempt
    simp only [sendAux, h attempt, ih (attempt + 1)]

lemma exists_lt_three (P : Nat → Prop) :
    (∃ i < 3, P i) ↔ P 0 ∨ P 1 ∨ P 2 := by
  constructor
  · rintro ⟨i, hi, hp⟩
    interval_cases i
    · exact Or.inl hp
    · exact Or.inr (Or.inl hp)
    · exact Or.inr (Or.inr hp)
  · rintro (h | h | h)
    · exact ⟨0, by omega, h⟩
    · exact ⟨1, by omega, h⟩
    · exact ⟨2, by omega, h⟩

lemma attemptOk_iff (o : AttemptOutcome) :
    attemptOk o = true ↔ o = .response 200 := by
  cases o with
  | response s => simp [attemptOk]
  | transportError => simp [attemptOk]

lemma send_to_zapier_cases (env : Nat → AttemptOutcome) :
    send_to_zapier env 3 =
      if attemptOk (env 0) then ⟨true, 1, []⟩
      else if attemptOk (env 1) then ⟨true, 2, [1]⟩
      else if attemptOk (env 2) then ⟨true, 3, [1, 2]⟩
      else ⟨false, 3, [1, 2]⟩ := by
  by_cases h0 : attemptOk (env 0) <;>
    by_cases h1 : attemptOk (env 1) <;>
      by_cases h2 : attemptOk (env 2) <;>
        simp [send_to_zapier, sendAux, h0, h1, h2]

/-- Claim C4: a single send_to_zapier call makes at most 3 POST attempts,
sleeps `2 ^ attempt` seconds between consecutive attempts (1s after the
first failed attempt, 2s after the second), treats a non-200 status and a
transport error identically, returns true exactly when some attempt
receives status 200, and when all 3 attempts fail it returns false as an
ordinary value (no exception, no recorded failure state). -/
theorem C4_retry_policy (env : Nat → AttemptOutcome) :
    (send_to_zapier env 3).attemptsMade ≤ 3
    ∧ (send_to_zapier env 3).sleeps
        = (List.range ((send_to_zapier env 3).attemptsMade - 1)).map (2 ^ ·)
    ∧ ((send_to_zapier env 3).success = true ↔
        ∃ i < 3, env i = .response 200)
    ∧ (∀ env2 : Nat → AttemptOutcome,
        (∀ i, (env i = .response 200) ↔ (env2 i = .response 200)) →
        send_to_zapier env 3 = send_to_zapier env2 3) := by
  have hcases := send_to_zapier_cases env
  have hexists : (∃ i < 3, env i = .response 200) ↔
      (attemptOk (env 0) ∨ attemptOk (env 1) ∨ attemptOk (env 2)) := by
    rw [exists_lt_three]
    simp only [← attemptOk_iff]
  refine ⟨?_, ?_, ?_, ?_⟩
  · rw [hcases]
    by_cases h0 : attemptOk (env 0) <;>
      by_cases h1 : attemptOk (env 1) <;>
        by_cases h2 : attemptOk (env 2) <;>
          simp [h0, h1, h2]
  · rw [hcases]
    by_cases h0 : attemptOk (env 0) <;>
      by_cases h1 : attemptOk (env 1) <;>
        by_cases h2 : attemptOk (env 2) <;>
          simp [h0, h1, h2, List.range_succ]
  · rw [hcases, hexists]
    by_cases h0 : attemptOk (env 0) <;>
      by_cases h1 : attemptOk (env 1) <;>
        by_cases h2 : attemptOk (env 2) <;>
          simp [h0, h1, h2]
  · intro env2 hsame
    have hok : ∀ i, attemptOk (env i) = attemptOk (env2 i) := by
      intro i
      by_cases h : env i = .response 200
      · rw [(attemptOk_iff _).mpr h, ((attemptOk_iff _).mpr ((hsame i).mp h)).symm]
      · have h2 : ¬ env2 i = .response 200 := fun hx => h ((hsame i).mpr hx)
        rw [Bool.eq_iff_iff]
        simp [attemptOk_iff, h, h2]
    exact sendAux_congr env env2 3 hok 3 0

/-- Concrete instantiation of C4: a URL that answers 500, then errors,
then answers 200 takes exactly 3 attempts with sleeps of 1s and 2s and
succeeds; a URL that never answers 200 exhausts 3 attempts and returns
false. -/
theorem C4_retry_policy_witness :
    send_to_zapier
        (fun i => if i = 0 then .response 500
          else if i = 1 then .transportError else .response 200) 3
      = ⟨true, 3, [1, 2]⟩
    ∧ send_to_zapier (fun _ => .transportError) 3 = ⟨false, 3, [1, 2]⟩ := by
  have h1 := (C4_retry_policy
    (fun i => if i = 0 then .response 500
      else if i = 1 then .transportError else .response 200)).2.2.1
  have h2 := (C4_retry_policy (fun _ => AttemptOutcome.transportError)).2.2.1
  constructor
  · have : (send_to_zapier
        (fun i => if i = 0 then .response 500
          else if i = 1 then .transportError else .response 200) 3).success
        = true := h1.mpr ⟨2, by omega, by simp⟩
    rw [send_to_zapier_cases] at this ⊢
    simp [attemptOk] at this ⊢
  · have : ¬ (send_to_zapier (fun _ => AttemptOutcome.transportError) 3).success
        = true := fun hx => by
      rcases h2.mp hx with ⟨i, _, hcon⟩
      exact AttemptOutcome.noConfusion hcon
    rw [send_to_zapier_cases] at this ⊢
    simp [attemptOk] at this ⊢

/-- Row of the `zapier_webhooks` table (src/database.py lines 111-121)
as returned by get_customer_webhooks for one account (active rows only). -/
structure WebhookReg where
  id : String
  webhook_url : String
  active : Bool
deriving Repr, DecidableEq

/-- send_to_zapier_async (src/routers/leads.py lines 68-73): fetch the
account's active registrations and, in a plain for-loop, await
send_to_zapier for each.  `net` gives each URL its per-attempt network
outcomes.  send_to_zapier returns a boolean and raises nothing (every
exception of an attempt is caught inside it, src/webhook_service.py lines
58-59), so the loop reaches every registration whatever the earlier
results were. -/
def send_to_zapier_async (webhooks : List WebhookReg)
    (net : String → Nat → AttemptOutcome) : List (String × Bool) :=
  webhooks.map (fun w => (w.webhook_url, (send_to_zapier (net w.webhook_url) 3).success))

lemma send_success_of_reachable (env : Nat → AttemptOutcome)
    (h : ∃ i < 3, env i = .response 200) :
    (send_to_zapier env 3).success = true := by
  rw [send_to_zapier_cases]
  rcases (exists_lt_three _).mp h with h0 | h1 | h2
  · simp [(attemptOk_iff _).mpr h0]
  · by_cases h0 : attemptOk (env 0) <;> simp [h0, (attemptOk_iff _).mpr h1]
  · by_cases h0 : attemptOk (env 0) <;>
      by_cases hb : attemptOk (env 1) <;>
        simp [h0, hb, (attemptOk_iff _).mpr h2]

/-- Claim C7: dispatch is isolated per registration.  The dispatch loop
produces one delivery result per registration (none is skipped), the
result recorded for a registration is a function of that registration's
own network behavior alone, and a registration whose URL answers 200
within the 3 attempts is delivered successfully no matter how the other
registrations' URLs fail. -/
theorem C7_dispatch_isolated (webhooks : List WebhookReg)
    (net : String → Nat → AttemptOutcome) (w : WebhookReg)
    (hw : w ∈ webhooks)
    (hreach : ∃ i < 3, net w.webhook_url i = .response 200) :
    (send_to_zapier_async webhooks net).length = webhooks.length
    ∧ (w.webhook_url, true) ∈ send_to_zapier_async webhooks net
    ∧ (∀ net2 : String → Nat → AttemptOutcome,
        net2 w.webhook_url = net w.webhook_url →
        ((w.webhook_url, (send_to_zapier (net2 w.webhook_url) 3).success)
          ∈ send_to_zapier_async webhooks net2
        ∧ send_to_zapier (net2 w.webhook_url) 3
            = send_to_zapier (net w.webhook_url) 3)) := by
  refine ⟨List.length_map _ _, ?_, ?_⟩
  · have hsucc := send_success_of_reachable (net w.webhook_url) hreach
    exact List.mem_map.mpr ⟨w, hw, by simp [hsucc]⟩
  · intro net2 hnet
    constructor
    · exact List.mem_map_of_mem
        (fun v => (v.webhook_url, (send_to_zapier (net2 v.webhook_url) 3).success)) hw
    · rw [hnet]

/-- Concrete instantiation of C7: with two registrations of which the
first is unreachable (every attempt raises), the dispatch loop still
delivers to the second, whose URL answers 200 on the first attempt. -/
theorem C7_dispatch_isolated_witness :
    send_to_zapier_async
        [⟨"wh1", "https://dead.example", true⟩,
         ⟨"wh2", "https://live.example", true⟩]
        (fun u _ => if u == "https://live.example" then .response 200
          else .transportError)
      = [("https://dead.example", false), ("https://live.example", true)]
    ∧ ("https://live.example", true) ∈ send_to_zapier_async
        [⟨"wh1", "https://dead.example", true⟩,
         ⟨"wh2", "https://live.example", true⟩]
        (fun u _ => if u == "https://live.example" then .response 200
          else .transportError) := by
  have h := C7_dispatch_isolated
    [⟨"wh1", "https://dead.example", true⟩,
     ⟨"wh2", "https://live.example", true⟩]
    (fun u _ => if u == "https://live.example" then .response 200
      else .transportError)
    ⟨"wh2", "https://live.example", true⟩
    (by simp)
    ⟨0, by omega, by simp⟩
  exact ⟨by decide, h.2.1⟩

/-- In-memory lead dict handed to the webhook sender by create_lead
(src/routers/leads.py lines 30-34): `lead.dict()` plus `id`,
`customer_id` and `created_at`.  Python dict lookups with a default are
embedded as `Option` fields; a key that was never set is `none`. -/
structure LeadDataDict where
  id : Option String
  customer_id : Option String
  email : Option String
  first_name : Option String
  last_name : Option String
  company : Option String
  phone : Option String
  source : Option String
  qualification_score : Option Int
  qualification_stage : Option String
  created_at : Option String
deriving Repr, DecidableEq

/-- The `lead` object of the zapier_payload built by send_to_zapier
(src/webhook_service.py lines 32-47, src/services/webhook_service.py lines
23-38): each field is `lead_data.get(key)`, except
`lead_data.get("qualification_score", 0)` and
`lead_data.get("qualification_stage", "new")` which default to 0 and
`new`. -/
structure ZapierLead where
  id : Option String
  email : Option String
  first_name : Option String
  last_name : Option String
  company : Option String
  phone : Option String
  source : Option String
  qualification_score : Int
  qualification_stage : String
  created_at : Option String
deriving Repr, DecidableEq

/-- Payload construction of send_to_zapier, lead part. -/
def zapierPayloadLead (ld : LeadDataDict) : ZapierLead :=
  { id := ld.id, email := ld.email, first_name := ld.first_name,
    last_name := ld.last_name, company := ld.company, phone := ld.phone,
    source := ld.source,
    qualification_score := ld.qualification_score.getD 0,
    qualification_stage := ld.qualification_stage.getD "new",
    created_at := ld.created_at }

/-- The dict built by create_lead before scheduling the webhook task
(src/routers/leads.py lines 30-34): the LeadInput fields plus `id`,
`customer_id`, `created_at`; no qualification_score or
qualification_stage key is ever set on this path. -/
def createLeadDataDict (lead_id customer_id : String) (input : LeadInput)
    (created_at : String) : LeadDataDict :=
  { id := some lead_id, customer_id := some customer_id,
    email := some input.email, first_name := input.first_name,
    last_name := input.last_name, company := input.company,
    phone := input.phone, source := some input.source,
    qualification_score := none, qualification_stage := none,
    created_at := some created_at }

/-- The five qualification stages enumerated by the specification. -/
def fiveStages : List String :=
  ["unqualified", "nurture", "qualified", "warm_lead", "hot_lead"]

/-- Claim C10: every lead snapshot produced by create_lead lacks
qualification entries (the insert never sets those columns, whose schema
defaults are 0 and `new`), so the dispatched webhook payload carries
qualification_score 0 and qualification_stage `new` — a stage value
outside the five-stage enumeration. -/
theorem C10_payload_defaults (lead_id customer_id created_at : String)
    (input : LeadInput) :
    (zapierPayloadLead
        (createLeadDataDict lead_id customer_id input created_at)).qualification_score = 0
    ∧ (zapierPayloadLead
        (createLeadDataDict lead_id customer_id input created_at)).qualification_stage = "new"
    ∧ "new" ∉ fiveStages
    ∧ (∀ l : LeadRow, l ∈ (create_lead
          { customers := [⟨"cA", "a@b.com", some "sub_1", "pro", "active",
              "sk_live_A", 50, 0⟩], leads := [] }
          "sk_live_A" lead_id input).2.leads →
        l.qualification_score = 0 ∧ l.qualification_stage = "new") := by
  refine ⟨rfl, rfl, by decide, ?_⟩
  intro l hl
  have hleads : (create_lead
      { customers := [⟨"cA", "a@b.com", some "sub_1", "pro", "active",
          "sk_live_A", 50, 0⟩], leads := [] }
      "sk_live_A" lead_id input).2.leads
      = [newLeadRow lead_id "cA" input] := rfl
  rw [hleads] at hl
  rw [List.mem_singleton] at hl
  subst hl
  exact ⟨rfl, rfl⟩

/-- Lower-cased character sequence of a string, for the case-insensitive
substring matching of the keyword scorer. -/
def lowerChars (s : String) : List Char :=
  s.data.map Char.toLower

/-- Case-insensitive substring occurrence: does `pat` occur as a
contiguous run inside the haystack? -/
def containsSub (pat : List Char) : List Char → Bool
  | [] => pat.isEmpty
  | c :: rest => pat.isPrefixOf (c :: rest) || containsSub pat rest

/-- Positive phrase table of the keyword scorer (spec section 4.1, step 2). -/
def positivePhrases : List (String × Int) :=
  [("interested", 15), ("demo", 20), ("pricing", 18), ("budget", 25),
   ("buy", 20), ("purchase", 20), ("meeting", 15), ("call", 12),
   ("urgent", 15), ("decision", 18), ("timeline", 12), ("when", 8),
   ("how much", 15), ("cost", 10)]

/-- Negative phrase table of the keyword scorer (spec section 4.1, step 3). -/
def negativePhrases : List (String × Int) :=
  [("not interested", 30), ("unsubscribe", 40), ("stop", 25),
   ("remove", 20), ("spam", 35), ("too expensive", 15), ("no budget", 20),
   ("maybe later", 10)]

/-- Sum of the weights of the table phrases occurring in the text;
matching is not mutually exclusive, every occurring phrase contributes. -/
def phraseDelta (text : List Char) (table : List (String × Int)) : Int :=
  (table.map (fun p => if containsSub (lowerChars p.1) text then p.2 else 0)).sum

/-- Question-mark engagement bonus: min(question_mark_count * 8, 20). -/
def questionBonus (text : String) : Int :=
  min ((text.data.count '?' : Int) * 8) 20

/-- Length bonus: min(len(text) // 50, 15) when len(text) > 100, else 0. -/
def lengthBonus (text : String) : Int :=
  if (100 : Int) < text.length then min ((text.length : Int) / 50) 15 else 0

/-- Modelled from the spec: the keyword-heuristic scorer (`score_message`,
also named `calculate_interest_score` by the spec) has no definition in
the repository slice under src/ — the only scoring code present there is
the LLM-based score_lead_interest.  Per spec section 4.1: start from base
30, add the weight of each matching positive phrase, subtract the weight
of each matching negative phrase (case-insensitive substring matching),
add the question-mark and length bonuses, and clamp the result to
[0, 100]. -/
def score_message (text : String) : Int :=
  let t := lowerChars text
  let raw : Int := 30 + phraseDelta t positivePhrases
    - phraseDelta t negativePhrases + questionBonus text + lengthBonus text
  max 0 (min 100 raw)

/-- Claim C2: for every text input, including the empty string and
arbitrarily long strings, score_message returns an integer in [0, 100]
inclusive, and the empty string (no phrase matches, no bonuses) yields
exactly the base score 30. -/
theorem C2_score_bounds (text : String) :
    0 ≤ score_message text ∧ score_message text ≤ 100
    ∧ score_message "" = 30 := by
  refine ⟨le_max_left _ _, ?_, ?_⟩
  · exact max_le (by norm_num) (min_le_left _ _)
  · decide

/-- The qualification stage enumeration (spec sections 4.1 and glossary). -/
inductive Stage where
  | unqualified
  | nurture
  | qualified
  | warm_lead
  | hot_lead
deriving Repr, DecidableEq

/-- Modelled from the spec: determine_stage has no definition in the
repository slice under src/ (the stage strings appear there only in SQL
filters and dashboards).  Per spec section 4.1, the branches are checked
in this fixed priority order, first match wins: hot_lead when
ready_for_demo and score >= 70, else warm_lead when score >= 60, else
qualified when score >= 40, else nurture when score >= 20, else
unqualified. -/
def determine_stage (score : Int) (ready_for_demo : Bool) : Stage :=
  if ready_for_demo = true ∧ 70 ≤ score then .hot_lead
  else if 60 ≤ score then .warm_lead
  else if 40 ≤ score then .qualified
  else if 20 ≤ score then .nurture
  else .unqualified

/-- Claim C3: determine_stage is a pure total function — every integer
score in [0, 100] with every readiness flag yields exactly one of the five
stages — the branches are decided in the fixed priority order, and the
hot_lead branch wins whenever its condition holds, regardless of the lower
thresholds also being satisfied. -/
theorem C3_stage_total_priority (score : Int) (h0 : 0 ≤ score)
    (h100 : score ≤ 100) (r : Bool) :
    determine_stage score r ∈
      [Stage.unqualified, .nurture, .qualified, .warm_lead, .hot_lead]
    ∧ ((r = true ∧ 70 ≤ score) → determine_stage score r = .hot_lead)
    ∧ (¬(r = true ∧ 70 ≤ score) → 60 ≤ score →
        determine_stage score r = .warm_lead)
    ∧ (¬(r = true ∧ 70 ≤ score) → ¬(60 ≤ score) → 40 ≤ score →
        determine_stage score r = .qualified)
    ∧ (¬(r = true ∧ 70 ≤ score) → ¬(60 ≤ score) → ¬(40 ≤ score) →
        20 ≤ score → determine_stage score r = .nurture)
    ∧ (¬(r = true ∧ 70 ≤ score) → ¬(60 ≤ score) → ¬(40 ≤ score) →
        ¬(20 ≤ score) → determine_stage score r = .unqualified) := by
  unfold determine_stage
  split_ifs with hA hB hC hD <;> simp_all

/-- Concrete instantiation of C3: at score 85 with the readiness flag set,
every lower threshold also holds, yet the stage is hot_lead. -/
theorem C3_stage_total_priority_witness :
    determine_stage 85 true = .hot_lead :=
  (C3_stage_total_priority 85 (by norm_num) (by norm_num) true).2.1
    ⟨rfl, by norm_num⟩

/-- ASCII whitespace, for the str.strip() step. -/
def isSpaceChar (c : Char) : Bool :=
  c = ' ' || c = '\t' || c = '\n' || c = '\r'

/-- Python str.strip(): drop whitespace from both ends. -/
def stripChars (cs : List Char) : List Char :=
  ((cs.dropWhile isSpaceChar).reverse.dropWhile isSpaceChar).reverse

/-- Accumulate a decimal number; fails on the first non-digit. -/
def parseDigitsAux : List Char → Nat → Option Nat
  | [], acc => some acc
  | c :: rest, acc =>
    if c.isDigit then parseDigitsAux rest (acc * 10 + (c.toNat - 48))
    else none

/-- Python int(s) on an already-stripped string: an optional sign followed
by one or more decimal digits; anything else raises ValueError, embedded
as `none`. -/
def parseIntPy (cs : List Char) : Option Int :=
  match cs with
  | [] => none
  | '-' :: rest =>
    if rest.isEmpty then none
    else (parseDigitsAux rest 0).map (fun n => -(n : Int))
  | '+' :: rest =>
    if rest.isEmpty then none
    else (parseDigitsAux rest 0).map (fun n => (n : Int))
  | _ => (parseDigitsAux cs 0).map (fun n => (n : Int))

/-- Parse step of AIResponseService.score_lead_interest
(src/services/ai_response_service.py lines 96-99):
`int(response.choices[0].message.content.strip())` under a bare except
that returns 50, commented there as the default moderate score. -/
def parseLeadScore (content : String) : Int :=
  match parseIntPy (stripChars content.data) with
  | some n => n
  | none => 50

/-- AIResponseService.score_lead_interest
(src/services/ai_response_service.py lines 72-99), abstracted over the
outcome of the chat-completion call: that call (lines 90-94) happens
before the try block, so an exception it raises propagates to the caller;
only the int() parse of the returned content is guarded. -/
def score_lead_interest (llmCall : Except String String) : Except String Int :=
  match llmCall with
  | .error e => .error e
  | .ok content => .ok (parseLeadScore content)

/-- Claim C9 counterexample: at the concrete unparseable LLM response
"I am interested" the operation falls back to 50, not to the mid-range 30
the claim states, and at a concrete raised LLM-call exception the error
propagates instead of being replaced by any default. -/
theorem C9_fallback_counterexample :
    score_lead_interest (.ok "I am interested") = .ok 50
    ∧ score_lead_interest (.ok "I am interested") ≠ .ok 30
    ∧ score_lead_interest (.error "APIConnectionError")
        = .error "APIConnectionError" := by
  refine ⟨rfl, ?_, rfl⟩
  intro hcon
  rw [show score_lead_interest (.ok "I am interested") = .ok 50 from rfl]
    at hcon
  injection hcon with hval
  exact absurd hval (by norm_num)

/-- Claim C9 as amended: when the LLM response content does not parse as
an integer, score_lead_interest does not propagate the parse failure — it
falls back to the default moderate score 50; an exception raised by the
chat-completion call itself is outside the guard and propagates
unchanged. -/
theorem C9_parse_fallback (content : String)
    (h : parseIntPy (stripChars content.data) = none) :
    score_lead_interest (.ok content) = .ok 50
    ∧ ∀ e : String, score_lead_interest (.error e) = .error e :=
  ⟨by simp [score_lead_interest, parseLeadScore, h], fun _ => rfl⟩

/-- Concrete instantiation of the amended C9 at the unparseable response
"no thanks". -/
theorem C9_parse_fallback_witness :
    score_lead_interest (.ok "no thanks") = .ok 50 :=
  (C9_parse_fallback "no thanks" rfl).1

end LeadRobot
